import Mathlib

/-!
Verification of the `cexio` REST client (`src/cexio/__init__.py`).

The development shallowly embeds the authenticated request pipeline of the
client: HMAC-SHA256 request signing (`Api._create_signature`), millisecond
nonce generation, parameter assembly and post-validation of private calls
(`Api._api_request`, `Api._validate_params`), response classification,
credential validation (`Api.validate_api_credentials`, `Api.__init__`),
the retry configuration (`create_session_with_retries`), and the direct
historical-data path (`Api.historical_ohlcv`).

Python strings are modelled as `List Char` (with `str.encode('utf-8')` made
explicit as `utf8`), byte strings as `List Nat` with every byte below 256,
dictionaries as insertion-ordered association lists with string keys, wall
clock readings of `time.time()` as exact rationals, and machine words of
SHA-256 as `Nat` reduced modulo `2 ^ 32`.
-/

namespace Cexio

/-- Reduce to a 32-bit word. -/
def w32 (x : Nat) : Nat := x % 4294967296

/-- Right rotation of a 32-bit word by `n` bits. -/
def rotr (n x : Nat) : Nat := w32 (x / 2 ^ n + x % 2 ^ n * 2 ^ (32 - n))

/-- SHA-256 choice function; the complement of `x` below `2 ^ 32` is `4294967295 - x`. -/
def shaCh (x y z : Nat) : Nat := Nat.xor (Nat.land x y) (Nat.land (4294967295 - x) z)

/-- SHA-256 majority function. -/
def shaMaj (x y z : Nat) : Nat :=
  Nat.xor (Nat.xor (Nat.land x y) (Nat.land x z)) (Nat.land y z)

/-- SHA-256 big sigma 0. -/
def bigS0 (x : Nat) : Nat := Nat.xor (Nat.xor (rotr 2 x) (rotr 13 x)) (rotr 22 x)

/-- SHA-256 big sigma 1. -/
def bigS1 (x : Nat) : Nat := Nat.xor (Nat.xor (rotr 6 x) (rotr 11 x)) (rotr 25 x)

/-- SHA-256 small sigma 0. -/
def smallS0 (x : Nat) : Nat := Nat.xor (Nat.xor (rotr 7 x) (rotr 18 x)) (x / 2 ^ 3)

/-- SHA-256 small sigma 1. -/
def smallS1 (x : Nat) : Nat := Nat.xor (Nat.xor (rotr 17 x) (rotr 19 x)) (x / 2 ^ 10)

/-- The 64 SHA-256 round constants. -/
def shaK : List Nat :=
  [1116352408, 1899447441, 3049323471, 3921009573, 961987163, 1508970993, 2453635748, 2870763221,
   3624381080, 310598401, 607225278, 1426881987, 1925078388, 2162078206, 2614888103, 3248222580,
   3835390401, 4022224774, 264347078, 604807628, 770255983, 1249150122, 1555081692, 1996064986,
   2554220882, 2821834349, 2952996808, 3210313671, 3336571891, 3584528711, 113926993, 338241895,
   666307205, 773529912, 1294757372, 1396182291, 1695183700, 1986661051, 2177026350, 2456956037,
   2730485921, 2820302411, 3259730800, 3345764771, 3516065817, 3600352804, 4094571909, 275423344,
   430227734, 506948616, 659060556, 883997877, 958139571, 1322822218, 1537002063, 1747873779,
   1955562222, 2024104815, 2227730452, 2361852424, 2428436474, 2756734187, 3204031479, 3329325298]

/-- The SHA-256 initial hash state. -/
def shaH0 : List Nat :=
  [1779033703, 3144134277, 1013904242, 2773480762, 1359893119, 2600822924, 528734635, 1541459225]

/-- Big-endian 8-byte rendering of the bit length. -/
def lenBytes (n : Nat) : List Nat :=
  [n / 2 ^ 56 % 256, n / 2 ^ 48 % 256, n / 2 ^ 40 % 256, n / 2 ^ 32 % 256,
   n / 2 ^ 24 % 256, n / 2 ^ 16 % 256, n / 2 ^ 8 % 256, n % 256]

/-- SHA-256 padding: append `128`, zeros up to 56 mod 64, then the 64-bit bit length. -/
def padMessage (msg : List Nat) : List Nat :=
  msg ++ 128 :: List.replicate ((119 - msg.length % 64) % 64) 0 ++ lenBytes (8 * msg.length)

/-- Group bytes into big-endian 32-bit words. -/
def bytesToWords : List Nat → List Nat
  | a :: b :: c :: d :: rest => (((a * 256 + b) * 256 + c) * 256 + d) :: bytesToWords rest
  | _ => []

/-- Split 32-bit words into big-endian bytes. -/
def wordsToBytes : List Nat → List Nat
  | [] => []
  | w :: rest =>
      w / 2 ^ 24 % 256 :: w / 2 ^ 16 % 256 :: w / 2 ^ 8 % 256 :: w % 256 :: wordsToBytes rest

/-- Fuel-driven split into 64-byte blocks. -/
def toBlocksF : Nat → List Nat → List (List Nat)
  | 0, _ => []
  | _, [] => []
  | f + 1, l => l.take 64 :: toBlocksF f (l.drop 64)

/-- Split a padded message into 64-byte blocks. -/
def toBlocks (l : List Nat) : List (List Nat) := toBlocksF l.length l

/-- Extend the message schedule; the accumulator holds the words most recent first. -/
def scheduleF : Nat → List Nat → List Nat
  | 0, acc => acc.reverse
  | f + 1, acc =>
      scheduleF f
        (w32 (smallS1 (acc.getD 1 0) + acc.getD 6 0 + smallS0 (acc.getD 14 0) + acc.getD 15 0)
          :: acc)

/-- The 64-word message schedule of a block. -/
def schedule (block : List Nat) : List Nat := scheduleF 48 (bytesToWords block).reverse

/-- One SHA-256 round on the eight-word working state. -/
def roundF (st : List Nat) (kw : Nat × Nat) : List Nat :=
  match st with
  | [a, b, c, d, e, f, g, h] =>
      let t1 := w32 (h + bigS1 e + shaCh e f g + kw.1 + kw.2)
      let t2 := w32 (bigS0 a + shaMaj a b c)
      [w32 (t1 + t2), a, b, c, w32 (d + t1), e, f, g]
  | other => other

/-- Compress one block into the hash state. -/
def compress (st : List Nat) (block : List Nat) : List Nat :=
  List.zipWith (fun x y => w32 (x + y)) st ((shaK.zip (schedule block)).foldl roundF st)

/-- SHA-256 of a byte string, as 32 bytes. -/
def sha256 (msg : List Nat) : List Nat :=
  wordsToBytes ((toBlocks (padMessage msg)).foldl compress shaH0)

/-- HMAC-SHA256 of a message under a byte-string key (`hmac.new(..., hashlib.sha256)`). -/
def hmacSha256 (key msg : List Nat) : List Nat :=
  let k0 := if 64 < key.length then sha256 key else key
  let k1 := k0 ++ List.replicate (64 - k0.length) 0
  sha256 (k1.map (Nat.xor 92) ++ sha256 (k1.map (Nat.xor 54) ++ msg))

/-- Lowercase hex digit. -/
def hexDigitL (n : Nat) : Char := if n < 10 then Char.ofNat (48 + n) else Char.ofNat (87 + n)

/-- Uppercase hex digit. -/
def hexDigitU (n : Nat) : Char := if n < 10 then Char.ofNat (48 + n) else Char.ofNat (55 + n)

/-- Lowercase hex rendering of a byte string (Python `hexdigest()`). -/
def hexdigest (bs : List Nat) : List Char :=
  bs.foldr (fun b acc => hexDigitL (b / 16) :: hexDigitL (b % 16) :: acc) []

/-- Direct uppercase hexadecimal rendering of a byte string, as the spec words it. -/
def hexUpper (bs : List Nat) : List Char :=
  bs.foldr (fun b acc => hexDigitU (b / 16) :: hexDigitU (b % 16) :: acc) []

/-- Python `str.upper()` on one ASCII character. -/
def pyUpperChar (c : Char) : Char :=
  if 97 ≤ c.toNat ∧ c.toNat ≤ 122 then Char.ofNat (c.toNat - 32) else c

/-- Python `str.upper()`, as applied to hex digests (ASCII only). -/
def pyUpper (s : List Char) : List Char := s.map pyUpperChar

/-- UTF-8 encoding of one code point. -/
def utf8Char (c : Char) : List Nat :=
  let n := c.toNat
  if n < 128 then [n]
  else if n < 2048 then [192 + n / 64, 128 + n % 64]
  else if n < 65536 then [224 + n / 4096, 128 + n / 64 % 64, 128 + n % 64]
  else [240 + n / 262144, 128 + n / 4096 % 64, 128 + n / 64 % 64, 128 + n % 64]

/-- Python `str.encode('utf-8')` on the char-list model of strings. -/
def utf8 (s : List Char) : List Nat := (s.map utf8Char).flatten

/-- The immutable credential state of an `Api` instance (source lines 66-69). -/
structure ApiState where
  username : List Char
  api_key : List Char
  api_secret : List Char

/-- Source lines 82-90, `Api._create_signature`: HMAC-SHA256 keyed by the UTF-8
secret over the UTF-8 encoding of `nonce + username + api_key`, rendered by
`hexdigest()` and then `upper()`. -/
def createSignature (A : ApiState) (nonce : List Char) : List Char :=
  pyUpper (hexdigest (hmacSha256 (utf8 A.api_secret) (utf8 (nonce ++ A.username ++ A.api_key))))

/-- Python `int()` applied to an exact rational: truncation toward zero. -/
def pyInt (q : ℚ) : ℤ := if 0 ≤ q then ⌊q⌋ else ⌈q⌉

/-- Source line 105: the nonce value `int(time.time() * 1000)` at clock reading `t` seconds. -/
def nonceOf (t : ℚ) : ℤ := pyInt (t * 1000)

/-- Decimal digits of a natural number, fuel-driven, most significant first. -/
def natDecCharsF : Nat → Nat → List Char → List Char
  | 0, _, acc => acc
  | fuel + 1, m, acc =>
      if m = 0 then acc else natDecCharsF fuel (m / 10) (Char.ofNat (48 + m % 10) :: acc)

/-- Python `str` of a natural number. -/
def natDecChars (n : Nat) : List Char :=
  if n = 0 then [Char.ofNat 48] else natDecCharsF n n []

/-- Python `str` of an integer. -/
def intDecChars (i : ℤ) : List Char :=
  if i < 0 then Char.ofNat 45 :: natDecChars i.natAbs else natDecChars i.toNat

/-- Source line 105: the nonce string `str(int(time.time() * 1000))`. -/
def nonceStr (t : ℚ) : List Char := intDecChars (nonceOf t)

/-- Values stored in a Python parameter dictionary. -/
inductive Val
  | vstr (s : List Char)
  | vint (i : ℤ)
  | vbool (b : Bool)
  | vnone
deriving DecidableEq

/-- A Python dict with string keys, as an insertion-ordered association list. -/
abbrev Dict := List (String × Val)

/-- Python `d[k] = v`: replace the binding in place, or append a new one. -/
def pySet : Dict → String → Val → Dict
  | [], k, v => [(k, v)]
  | p :: rest, k, v => if p.1 == k then (k, v) :: rest else p :: pySet rest k v

/-- Python `d.update(u)`: set the bindings of `u` in order. -/
def pyUpdate (d : Dict) (u : Dict) : Dict := u.foldl (fun acc p => pySet acc p.1 p.2) d

/-- Python `k in d`. -/
def dictContains (d : Dict) (k : String) : Bool := d.any (fun p => p.1 == k)

/-- Source lines 92-96, `Api._validate_params`: fail with `ValueError` when a
required parameter is missing. -/
def validate_params (required : List String) (provided : Dict) : Except String Unit :=
  let missing := required.filter (fun p => !dictContains provided p)
  if missing.isEmpty then Except.ok ()
  else Except.error ("Missing required parameters: " ++ String.intercalate ", " missing)

/-- Source line 107: the dict `{'key': ..., 'signature': ..., 'nonce': ...}` that a
private call updates its params with, at clock reading `t`. -/
def authTriple (A : ApiState) (t : ℚ) : Dict :=
  [("key", Val.vstr A.api_key),
   ("signature", Val.vstr (createSignature A (nonceStr t))),
   ("nonce", Val.vstr (nonceStr t))]

/-- Source lines 104-108: the parameter set `_api_request` sends, given the
working dict `params`, the `private` flag, and the clock reading `t` at
request construction. -/
def apiRequestParams (A : ApiState) (params : Dict) (priv : Bool) (t : ℚ) : Dict :=
  if priv then pyUpdate params (authTriple A t) else params

/-- Source line 100, `params = params or {}`: `None` and the empty dict are both
replaced by a fresh empty dict, a non-empty dict is used as is (aliased). -/
def paramsOrEmpty (p : Option Dict) : Dict :=
  match p with
  | none => []
  | some d => if d.isEmpty then [] else d

/-- The outgoing parameter set of `_api_request` for a caller-supplied argument `p`. -/
def apiRequestOutgoing (A : ApiState) (p : Option Dict) (priv : Bool) (t : ℚ) : Dict :=
  apiRequestParams A (paramsOrEmpty p) priv t

/-- The caller's own dict after `_api_request` ran: a non-empty dict is the very
object `params.update` mutated, an empty dict was replaced by a fresh dict at
line 100 and stays untouched. -/
def callerDictAfter (A : ApiState) (p : Option Dict) (priv : Bool) (t : ℚ) : Option Dict :=
  match p with
  | none => none
  | some d => some (if d.isEmpty then d else apiRequestParams A d priv t)

/-- Source line 205, `get_order_book`: params `{'depth': depth}`. -/
def get_order_book_params (depth : ℤ) : Option Dict := some [("depth", Val.vint depth)]

/-- Source line 210, `get_trade_history`: params `{'since': since}`. -/
def get_trade_history_params (since : Val) : Option Dict := some [("since", since)]

/-- Source lines 153-176: the remaining public endpoints pass no params at all. -/
def no_params : Option Dict := none

/-- Source lines 291-301, `get_crypto_address`: the dict built in the method body
at clock reading `t0`, before `private_api_call` dispatches it. -/
def get_crypto_address_params (A : ApiState) (t0 : ℚ) (currency : List Char) : Dict :=
  [("key", Val.vstr A.api_key),
   ("signature", Val.vstr (createSignature A (nonceStr t0))),
   ("nonce", Val.vstr (nonceStr t0)),
   ("currency", Val.vstr currency)]

/-- Source lines 304-314, `get_all_crypto_addresses`: the same dict shape, sent
to the `get_crypto_address` command. -/
def get_all_crypto_addresses_params (A : ApiState) (t0 : ℚ) (currency : List Char) : Dict :=
  get_crypto_address_params A t0 currency

/-- JSON values, for modelling parsed response bodies. -/
inductive Json
  | null
  | jbool (b : Bool)
  | jnum (n : ℤ)
  | jstr (s : String)
  | jarr (elems : List Json)
  | jobj (fields : List (String × Json))

/-- An HTTP response: status code, the result of `response.json()` (`none` models
the `ValueError` of an unparsable body), and `response.text`. -/
structure Resp where
  status : Nat
  jsonBody : Option Json
  text : String

/-- The typed errors of the client (source lines 18-47). -/
inductive ApiErr
  | network (msg : String)
  | invalidCredentials (msg : String)
  | apiResponse (status_code : Nat) (message : Json) (data : Option Json)

/-- Lookup of a key in a parsed JSON object. -/
def jsonGet (fields : List (String × Json)) (k : String) : Option Json :=
  List.lookup k fields

/-- Source lines 38-47, `ApiResponseError.from_response`. When the body parses as
a JSON object, the message is `body.get('error', response.text)` and the data is
the body; when parsing fails, message and data are the raw text. On a parsed
non-object body, `body.get` raises an untyped `AttributeError`, returned here as
`Except.error`. -/
def from_response (r : Resp) : Except String ApiErr :=
  match r.jsonBody with
  | some (Json.jobj fields) =>
      Except.ok (ApiErr.apiResponse r.status ((jsonGet fields "error").getD (Json.jstr r.text))
        (some (Json.jobj fields)))
  | some _ => Except.error "AttributeError"
  | none => Except.ok (ApiErr.apiResponse r.status (Json.jstr r.text) (some (Json.jstr r.text)))

/-- Whether `needle` is a prefix of `hay`. -/
def listPrefix : List Char → List Char → Bool
  | [], _ => true
  | _ :: _, [] => false
  | a :: as, b :: bs => a == b && listPrefix as bs

/-- Whether `needle` occurs as a contiguous substring of `hay`. -/
def listSubstr (needle : List Char) : List Char → Bool
  | [] => needle.isEmpty
  | c :: rest => listPrefix needle (c :: rest) || listSubstr needle rest

/-- Python `needle in j` on a parsed JSON value: key membership on objects,
element equality on arrays, substring on strings, `TypeError` otherwise. -/
def pyInJson (needle : String) (j : Json) : Except String Bool :=
  match j with
  | Json.jobj fields => Except.ok (fields.any (fun p => p.1 == needle))
  | Json.jarr elems =>
      Except.ok (elems.any (fun e => match e with | Json.jstr s => s == needle | _ => false))
  | Json.jstr s => Except.ok (listSubstr needle.toList s.toList)
  | _ => Except.error "TypeError"

/-- Result of dispatching one response through the classification code: a decoded
body, a typed `ApiError`, or an untyped Python exception escaping. -/
inductive ClassifyResult
  | ok (body : Json)
  | err (e : ApiErr)
  | pyRaise (exc : String)

/-- Source lines 119-133: `raise_for_status` (an `HTTPError` for 4xx/5xx, handled
at line 131 via `from_response`), then `response.json()` (a `ValueError` becomes
the fixed invalid-JSON `ApiResponseError` with no data), then the `'error' in
response_data` check feeding `from_response`. -/
def classify (r : Resp) : ClassifyResult :=
  if 400 ≤ r.status ∧ r.status < 600 then
    match from_response r with
    | Except.ok e => ClassifyResult.err e
    | Except.error exc => ClassifyResult.pyRaise exc
  else
    match r.jsonBody with
    | none => ClassifyResult.err (ApiErr.apiResponse r.status (Json.jstr "Invalid JSON response") none)
    | some body =>
        match pyInJson "error" body with
        | Except.error exc => ClassifyResult.pyRaise exc
        | Except.ok true =>
            match from_response r with
            | Except.ok e => ClassifyResult.err e
            | Except.error exc => ClassifyResult.pyRaise exc
        | Except.ok false => ClassifyResult.ok body

/-- What the transport produced for one dispatched request. -/
inductive TransportOutcome
  | timeout
  | requestFail (msg : String)
  | response (r : Resp)

/-- Source lines 113-136: the full result of `_api_request` for command `cmd`
once the transport outcome is known. A `Timeout` and any other
`RequestException` become `NetworkError`; a received response is classified. -/
def api_request_result (cmd : String) (o : TransportOutcome) : ClassifyResult :=
  match o with
  | TransportOutcome.timeout =>
      ClassifyResult.err (ApiErr.network ("Request to " ++ cmd ++ " timed out."))
  | TransportOutcome.requestFail msg =>
      ClassifyResult.err (ApiErr.network ("An error occurred: " ++ msg))
  | TransportOutcome.response r => classify r

/-- Source lines 191-200, `Api.historical_ohlcv`: a direct GET outside the
standard envelope. Its only handler catches `RequestException`, which covers the
`HTTPError` of `raise_for_status` (text `httpText r`), the `JSONDecodeError` of
`response.json()` on modern `requests` (text `jsonText r`), timeouts (text
`tmoText`), and transport failures alike, wrapping them all as `NetworkError`;
a parsed body is returned as is, with no check of an `error` key. -/
def historical_ohlcv_result (tmoText : String) (httpText jsonText : Resp → String)
    (o : TransportOutcome) : ClassifyResult :=
  match o with
  | TransportOutcome.timeout =>
      ClassifyResult.err
        (ApiErr.network ("An error occurred while fetching historical OHLCV data: " ++ tmoText))
  | TransportOutcome.requestFail msg =>
      ClassifyResult.err
        (ApiErr.network ("An error occurred while fetching historical OHLCV data: " ++ msg))
  | TransportOutcome.response r =>
      if 400 ≤ r.status ∧ r.status < 600 then
        ClassifyResult.err
          (ApiErr.network ("An error occurred while fetching historical OHLCV data: " ++ httpText r))
      else
        match r.jsonBody with
        | none =>
            ClassifyResult.err
              (ApiErr.network
                ("An error occurred while fetching historical OHLCV data: " ++ jsonText r))
        | some body => ClassifyResult.ok body

/-- The retry configuration the session is mounted with (source lines 50-63). -/
structure RetryConfig where
  total : Nat
  read : Nat
  connect : Nat
  backoff_factor : ℚ
  status_forcelist : List Nat

/-- Source lines 50-63, `create_session_with_retries`. -/
def create_session_with_retries (retries : Nat) (backoff_factor : ℚ) : RetryConfig :=
  ⟨retries, retries, retries, backoff_factor, [429, 500, 502, 503, 504]⟩

/-- Source line 71: the session of an `Api` instance uses the default arguments
`retries=3, backoff_factor=0.3`. -/
def defaultSession : RetryConfig := create_session_with_retries 3 (3 / 10)

/-- One attempt at the wire: a connect failure, a read failure, or a response
with the given status. -/
inductive AttemptOutcome
  | connectFail
  | readFail
  | httpStatus (code : Nat)

/-- Whether the configured retry policy retries this attempt outcome. -/
def isRetryable (cfg : RetryConfig) : AttemptOutcome → Bool
  | AttemptOutcome.connectFail => true
  | AttemptOutcome.readFail => true
  | AttemptOutcome.httpStatus c => cfg.status_forcelist.contains c

/-- Modelled from the spec: the bounded retry loop of the mounted adapter
(urllib3's `Retry`, an external dependency whose code is not under `src/`).
Attempt `i` takes outcome `outcomes i`; a retryable outcome consumes one unit of
fuel and moves on, a response whose status is not in the forcelist is returned,
and exhausted fuel surfaces the `MaxRetryError` cause. -/
def sendAttempts (cfg : RetryConfig) (outcomes : Nat → AttemptOutcome) :
    Nat → Nat → Except String Nat
  | 0, _ => Except.error "Max retries exceeded"
  | fuel + 1, i =>
      match outcomes i with
      | AttemptOutcome.httpStatus c =>
          if cfg.status_forcelist.contains c then sendAttempts cfg outcomes fuel (i + 1)
          else Except.ok c
      | _ => sendAttempts cfg outcomes fuel (i + 1)

/-- Modelled from the spec: a session send makes the first attempt plus at most
`cfg.total` retries. -/
def sessionSend (cfg : RetryConfig) (outcomes : Nat → AttemptOutcome) : Except String Nat :=
  sendAttempts cfg outcomes (cfg.total + 1) 0

/-- Modelled from the spec: the backoff slept before retry `r + 1`, doubling per
attempt from the configured base factor. -/
def backoffDelay (cfg : RetryConfig) (r : Nat) : ℚ := cfg.backoff_factor * 2 ^ r

/-- Source lines 134-136: a `RequestException` out of the session (retries
exhausted included) is wrapped by `_api_request` as `NetworkError` carrying the
cause message. -/
def sendViaApiRequest (cfg : RetryConfig) (outcomes : Nat → AttemptOutcome) :
    Except ApiErr Nat :=
  match sessionSend cfg outcomes with
  | Except.error msg => Except.error (ApiErr.network ("An error occurred: " ++ msg))
  | Except.ok s => Except.ok s

/-- Source line 11: the documented exact key length, an advisory constant. -/
def API_KEY_LENGTH : Nat := 26

/-- Source line 12: the documented exact secret length, an advisory constant. -/
def API_SECRET_LENGTH : Nat := 27

/-- Source lines 73-80, `Api.validate_api_credentials`. -/
def validate_api_credentials (api_key api_secret : List Char) : Except ApiErr Unit :=
  if api_key.isEmpty || api_secret.isEmpty then
    Except.error (ApiErr.invalidCredentials "API key and secret cannot be empty.")
  else if api_key.length < 20 || api_secret.length < 20 then
    Except.error
      (ApiErr.invalidCredentials "API key or secret length is too short. Check if they are correct.")
  else Except.ok ()

/-- A constructed `Api` instance: credential state plus the mounted session. -/
structure ApiInstance where
  state : ApiState
  session : RetryConfig

/-- Source lines 66-71, `Api.__init__`: store the credentials, validate them
(raising `InvalidCredentialsError` before anything else happens), then create
the retry session; no request is issued. -/
def apiInit (username api_key api_secret : List Char) : Except ApiErr ApiInstance :=
  match validate_api_credentials api_key api_secret with
  | Except.error e => Except.error e
  | Except.ok _ => Except.ok ⟨⟨username, api_key, api_secret⟩, defaultSession⟩

/-- Whether construction succeeded. -/
def isOkInit : Except ApiErr ApiInstance → Bool
  | Except.ok _ => true
  | Except.error _ => false

/-- Whether construction failed with `InvalidCredentialsError`. -/
def isInvalidCredentialsErr : Except ApiErr ApiInstance → Bool
  | Except.error (ApiErr.invalidCredentials _) => true
  | _ => false

/-- Whether a classification outcome is an `ApiResponseError`. -/
def isApiRespErr : ClassifyResult → Bool
  | ClassifyResult.err (ApiErr.apiResponse _ _ _) => true
  | _ => false

/-- Whether a classification outcome is a `NetworkError`. -/
def isNetworkErr : ClassifyResult → Bool
  | ClassifyResult.err (ApiErr.network _) => true
  | _ => false

/-- A concrete credential state for the distinctness tests. -/
def testState : ApiState :=
  ⟨"up100000000".toList, "aaaaaaaaaaaaaaaaaaaaaaaaaa".toList, "bbbbbbbbbbbbbbbbbbbbbbbbbbb".toList⟩

/-- The test state with a different username. -/
def testStateUser2 : ApiState :=
  ⟨"up100000001".toList, "aaaaaaaaaaaaaaaaaaaaaaaaaa".toList, "bbbbbbbbbbbbbbbbbbbbbbbbbbb".toList⟩

/-- The test state with a different key. -/
def testStateKey2 : ApiState :=
  ⟨"up100000000".toList, "aaaaaaaaaaaaaaaaaaaaaaaaab".toList, "bbbbbbbbbbbbbbbbbbbbbbbbbbb".toList⟩

/-- The test state with a different secret. -/
def testStateSecret2 : ApiState :=
  ⟨"up100000000".toList, "aaaaaaaaaaaaaaaaaaaaaaaaaa".toList, "bbbbbbbbbbbbbbbbbbbbbbbbbbc".toList⟩

/-- A concrete nonce string. -/
def testNonce : List Char := "1700000000000".toList

/-- A second concrete nonce string. -/
def testNonce2 : List Char := "1700000000001".toList

/-- Every byte produced by `wordsToBytes` is below 256. -/
theorem wordsToBytes_lt (ws : List Nat) : ∀ b ∈ wordsToBytes ws, b < 256 := by
  induction ws with
  | nil => simp [wordsToBytes]
  | cons w rest ih =>
    intro b hb
    simp only [wordsToBytes, List.mem_cons] at hb
    rcases hb with h | h | h | h | h
    · omega
    · omega
    · omega
    · omega
    · exact ih b h

/-- Every byte of a SHA-256 digest is below 256. -/
theorem sha256_byte_lt (msg : List Nat) : ∀ b ∈ sha256 msg, b < 256 :=
  wordsToBytes_lt _

/-- Every byte of an HMAC-SHA256 digest is below 256. -/
theorem hmacSha256_byte_lt (key msg : List Nat) : ∀ b ∈ hmacSha256 key msg, b < 256 := by
  unfold hmacSha256
  exact sha256_byte_lt _

/-- Uppercasing a lowercase hex digit gives the uppercase hex digit. -/
theorem pyUpperChar_hexDigitL (n : Nat) (h : n < 16) : pyUpperChar (hexDigitL n) = hexDigitU n := by
  interval_cases n <;> rfl

/-- On byte strings, `hexdigest()` followed by `upper()` is the direct uppercase
hexadecimal rendering. -/
theorem pyUpper_hexdigest (bs : List Nat) (h : ∀ b ∈ bs, b < 256) :
    pyUpper (hexdigest bs) = hexUpper bs := by
  induction bs with
  | nil => rfl
  | cons b t ih =>
    have hb : b < 256 := h b (by simp)
    have h1 : b / 16 < 16 := by omega
    have h2 : b % 16 < 16 := by omega
    show pyUpperChar (hexDigitL (b / 16)) :: pyUpperChar (hexDigitL (b % 16)) ::
        pyUpper (hexdigest t) = hexDigitU (b / 16) :: hexDigitU (b % 16) :: hexUpper t
    rw [pyUpperChar_hexDigitL _ h1, pyUpperChar_hexDigitL _ h2,
      ih (fun x hx => h x (List.mem_cons_of_mem _ hx))]

/-- Characterization of Python `in` on dicts: membership of the key list. -/
theorem dictContains_iff (d : Dict) (k : String) :
    dictContains d k = true ↔ k ∈ d.map Prod.fst := by
  simp only [dictContains, List.any_eq_true, List.mem_map, beq_iff_eq]

/-- Setting a key leaves the key list unchanged when the key is bound, and
appends it otherwise. -/
theorem keys_pySet (d : Dict) (k : String) (v : Val) :
    (pySet d k v).map Prod.fst =
      if dictContains d k then d.map Prod.fst else d.map Prod.fst ++ [k] := by
  induction d with
  | nil => simp [pySet, dictContains]
  | cons p rest ih =>
    by_cases h : p.1 = k
    · simp [pySet, dictContains, h]
    · have hb : (p.1 == k) = false := by simpa using h
      simp only [pySet, hb, Bool.false_eq_true, if_false, List.map_cons, dictContains,
        List.any_cons, Bool.false_or]
      rw [show (rest.any fun q => q.1 == k) = dictContains rest k from rfl, ih]
      by_cases hc : dictContains rest k <;> simp [hc]

/-- Looking up the key just set yields the new value. -/
theorem lookup_pySet_self (d : Dict) (k : String) (v : Val) :
    List.lookup k (pySet d k v) = some v := by
  induction d with
  | nil => simp [pySet, List.lookup]
  | cons p rest ih =>
    by_cases h : p.1 = k
    · simp [pySet, h, List.lookup]
    · have hb : (p.1 == k) = false := by simpa using h
      have hb2 : (k == p.1) = false := by simpa using Ne.symm h
      simp [pySet, hb, List.lookup, hb2, ih]

/-- Looking up a different key is unaffected by a set. -/
theorem lookup_pySet_ne (d : Dict) {k k2 : String} (v : Val) (h : k2 ≠ k) :
    List.lookup k2 (pySet d k v) = List.lookup k2 d := by
  have hk : (k2 == k) = false := by simpa using h
  induction d with
  | nil => simp [pySet, List.lookup, hk]
  | cons p rest ih =>
    by_cases hp : p.1 = k
    · subst hp
      have hb2 : (k2 == p.1) = false := by simpa using h
      simp [pySet, List.lookup, hb2]
    · have hb : (p.1 == k) = false := by simpa using hp
      by_cases hq : k2 = p.1
      · subst hq; simp [pySet, hb, List.lookup]
      · have hq2 : (k2 == p.1) = false := by simpa using hq
        simp [pySet, hb, List.lookup, hq2, ih]

/-- A set key is in the key list afterwards. -/
theorem mem_keys_pySet_self (d : Dict) (k : String) (v : Val) :
    k ∈ (pySet d k v).map Prod.fst := by
  rw [keys_pySet]
  by_cases hc : dictContains d k
  · simpa [hc] using (dictContains_iff d k).1 hc
  · simp [hc]

/-- Keys never disappear under a set. -/
theorem mem_keys_pySet_of_mem (d : Dict) (k : String) (v : Val) {k2 : String}
    (h : k2 ∈ d.map Prod.fst) : k2 ∈ (pySet d k v).map Prod.fst := by
  rw [keys_pySet]
  by_cases hc : dictContains d k <;> simp [hc, h]

/-- Setting a key preserves distinctness of the keys. -/
theorem nodup_keys_pySet (d : Dict) (k : String) (v : Val)
    (h : (d.map Prod.fst).Nodup) : ((pySet d k v).map Prod.fst).Nodup := by
  rw [keys_pySet]
  by_cases hc : dictContains d k
  · simpa [hc] using h
  · have hk : k ∉ d.map Prod.fst := fun hmem => hc ((dictContains_iff d k).2 hmem)
    simp only [hc, Bool.false_eq_true, if_false]
    simp [List.nodup_append, h, hk]

/-- The private branch of `_api_request` is the three-fold dict update with
key, then signature, then nonce (source line 107). -/
theorem apiRequestParams_private (A : ApiState) (d : Dict) (t : ℚ) :
    apiRequestParams A d true t =
      pySet (pySet (pySet d "key" (Val.vstr A.api_key))
          "signature" (Val.vstr (createSignature A (nonceStr t))))
        "nonce" (Val.vstr (nonceStr t)) := rfl

/-- The public branch of `_api_request` passes the dict through unchanged. -/
theorem apiRequestParams_public (A : ApiState) (d : Dict) (t : ℚ) :
    apiRequestParams A d false t = d := rfl

/-- The three auth keys are present after the private update. -/
theorem mem_keys_apiRequestParams (A : ApiState) (d : Dict) (t : ℚ) :
    "key" ∈ (apiRequestParams A d true t).map Prod.fst
      ∧ "signature" ∈ (apiRequestParams A d true t).map Prod.fst
      ∧ "nonce" ∈ (apiRequestParams A d true t).map Prod.fst := by
  rw [apiRequestParams_private]
  refine ⟨?_, ?_, ?_⟩
  · exact mem_keys_pySet_of_mem _ _ _ (mem_keys_pySet_of_mem _ _ _ (mem_keys_pySet_self _ _ _))
  · exact mem_keys_pySet_of_mem _ _ _ (mem_keys_pySet_self _ _ _)
  · exact mem_keys_pySet_self _ _ _

/-- The private update preserves distinctness of keys. -/
theorem nodup_keys_apiRequestParams (A : ApiState) (d : Dict) (t : ℚ)
    (h : (d.map Prod.fst).Nodup) : ((apiRequestParams A d true t).map Prod.fst).Nodup := by
  rw [apiRequestParams_private]
  exact nodup_keys_pySet _ _ _ (nodup_keys_pySet _ _ _ (nodup_keys_pySet _ _ _ h))

/-- Truncation toward zero agrees with the floor on nonnegative rationals. -/
theorem pyInt_of_nonneg {q : ℚ} (h : 0 ≤ q) : pyInt q = ⌊q⌋ := if_pos h

/-- A successful JSON-object lookup makes the Python `in` check succeed. -/
theorem any_key_of_lookup {l : List (String × Json)} {k : String} {v : Json}
    (h : List.lookup k l = some v) : (l.any fun p => p.1 == k) = true := by
  induction l with
  | nil => simp [List.lookup] at h
  | cons p rest ih =>
    by_cases hq : k = p.1
    · simp [hq]
    · have hq2 : (k == p.1) = false := by simpa using hq
      simp only [List.lookup, hq2] at h
      simp [ih h]

/-- Modelled from the spec: exhausting the fuel on all-retryable outcomes
surfaces the retry-exceeded cause. -/
theorem sendAttempts_exhaust (cfg : RetryConfig) (outcomes : Nat → AttemptOutcome) :
    ∀ fuel i, (∀ j, j < fuel → isRetryable cfg (outcomes (i + j)) = true) →
      sendAttempts cfg outcomes fuel i = Except.error "Max retries exceeded" := by
  intro fuel
  induction fuel with
  | zero => intro i _; rfl
  | succ f ih =>
    intro i h
    have h0 : isRetryable cfg (outcomes i) = true := by simpa using h 0 (by omega)
    have hrest : ∀ j, j < f → isRetryable cfg (outcomes (i + 1 + j)) = true := by
      intro j hj
      have := h (j + 1) (by omega)
      rwa [show i + (j + 1) = i + 1 + j by omega] at this
    cases ho : outcomes i with
    | connectFail => simpa [sendAttempts, ho] using ih (i + 1) hrest
    | readFail => simpa [sendAttempts, ho] using ih (i + 1) hrest
    | httpStatus c =>
      have hc : c ∈ cfg.status_forcelist := by
        simpa [isRetryable, ho] using h0
      simpa [sendAttempts, ho, hc] using ih (i + 1) hrest

/-- Modelled from the spec: a non-retryable response after `n` retryable attempts
is returned as long as the fuel covers attempt `n`. -/
theorem sendAttempts_success (cfg : RetryConfig) (outcomes : Nat → AttemptOutcome) :
    ∀ n fuel i c, n < fuel →
      (∀ j, j < n → isRetryable cfg (outcomes (i + j)) = true) →
      outcomes (i + n) = AttemptOutcome.httpStatus c →
      cfg.status_forcelist.contains c = false →
      sendAttempts cfg outcomes fuel i = Except.ok c := by
  intro n
  induction n with
  | zero =>
    intro fuel i c hfuel _ ho hc
    cases fuel with
    | zero => omega
    | succ f =>
      have hc2 : c ∉ cfg.status_forcelist := by simpa using hc
      simp only [sendAttempts]
      rw [show i + 0 = i from rfl] at ho
      simp [ho, hc2]
  | succ m ih =>
    intro fuel i c hfuel h ho hc
    cases fuel with
    | zero => omega
    | succ f =>
      have h0 : isRetryable cfg (outcomes i) = true := by simpa using h 0 (by omega)
      have hrest : ∀ j, j < m → isRetryable cfg (outcomes (i + 1 + j)) = true := by
        intro j hj
        have := h (j + 1) (by omega)
        rwa [show i + (j + 1) = i + 1 + j by omega] at this
      have ho2 : outcomes (i + 1 + m) = AttemptOutcome.httpStatus c := by
        rwa [show i + (m + 1) = i + 1 + m by omega] at ho
      cases hx : outcomes i with
      | connectFail =>
        simpa [sendAttempts, hx] using ih f (i + 1) c (by omega) hrest ho2 hc
      | readFail =>
        simpa [sendAttempts, hx] using ih f (i + 1) c (by omega) hrest ho2 hc
      | httpStatus s =>
        have hs : s ∈ cfg.status_forcelist := by
          simpa [isRetryable, hx] using h0
        simpa [sendAttempts, hx, hs] using ih f (i + 1) c (by omega) hrest ho2 hc

set_option maxRecDepth 200000 in
set_option maxHeartbeats 4000000 in
/-- C1: for every nonce, identifier (username), key and secret, `_create_signature`
returns exactly the uppercase hexadecimal rendering of HMAC-SHA256 keyed by the
secret over the delimiter-free concatenation nonce + identifier + key; it is
deterministic, and at the concrete test credentials changing any single input
changes the output. -/
theorem signature_is_uppercase_hmac_and_deterministic :
    (∀ (A : ApiState) (nonce : List Char),
        createSignature A nonce =
          hexUpper (hmacSha256 (utf8 A.api_secret) (utf8 (nonce ++ A.username ++ A.api_key))))
    ∧ (∀ (A1 A2 : ApiState) (n1 n2 : List Char), A1 = A2 → n1 = n2 →
        createSignature A1 n1 = createSignature A2 n2)
    ∧ (createSignature testState testNonce ≠ createSignature testState testNonce2
       ∧ createSignature testState testNonce ≠ createSignature testStateUser2 testNonce
       ∧ createSignature testState testNonce ≠ createSignature testStateKey2 testNonce
       ∧ createSignature testState testNonce ≠ createSignature testStateSecret2 testNonce) := by
  refine ⟨fun A nonce => ?_, fun A1 A2 n1 n2 h1 h2 => by rw [h1, h2], by decide, by decide,
    by decide, by decide⟩
  exact pyUpper_hexdigest _ (hmacSha256_byte_lt _ _)

/-- Witness for C1: the determinism conjunct applied at the concrete test inputs. -/
theorem signature_deterministic_witness :
    createSignature testState testNonce = createSignature testState testNonce :=
  signature_is_uppercase_hmac_and_deterministic.2.1 testState testState testNonce testNonce
    rfl rfl

/-- Counterexample to C2: the clock moves strictly forward from 1.0001 s to
1.0002 s, yet the two private calls derive the same nonce 1000 and send the
same nonce parameter — the nonce sequence is not strictly increasing. -/
theorem nonce_not_strictly_increasing :
    ((10001 : ℚ)/10000 < 10002/10000)
    ∧ nonceOf (10001/10000) = nonceOf (10002/10000)
    ∧ List.lookup "nonce" (apiRequestParams testState [] true (10001/10000)) =
        List.lookup "nonce" (apiRequestParams testState [] true (10002/10000)) := by
  have e1 : nonceOf (10001/10000) = 1000 := by
    rw [nonceOf, pyInt, if_pos (by norm_num : (0:ℚ) ≤ 10001/10000 * 1000)]
    norm_num
  have e2 : nonceOf (10002/10000) = 1000 := by
    rw [nonceOf, pyInt, if_pos (by norm_num : (0:ℚ) ≤ 10002/10000 * 1000)]
    norm_num
  refine ⟨by norm_num, e1.trans e2.symm, ?_⟩
  rw [apiRequestParams_private, apiRequestParams_private, lookup_pySet_self, lookup_pySet_self,
    nonceStr, nonceStr, e1, e2]

/-- C2 as amended: with a never-rewinding wall clock the nonce sequence of the
calls of one instance is non-decreasing, and a call at least one millisecond
after another carries a strictly greater nonce; equality is possible only
within the same millisecond. -/
theorem nonce_monotone (t1 t2 : ℚ) (h0 : 0 ≤ t1) (h12 : t1 ≤ t2) :
    nonceOf t1 ≤ nonceOf t2 ∧ (t1 + 1/1000 ≤ t2 → nonceOf t1 < nonceOf t2) := by
  have h1 : (0:ℚ) ≤ t1 * 1000 := by positivity
  have h2 : (0:ℚ) ≤ t2 * 1000 := le_trans h1 (by nlinarith)
  rw [nonceOf, nonceOf, pyInt, pyInt, if_pos h1, if_pos h2]
  constructor
  · exact Int.floor_le_floor (by nlinarith)
  · intro hms
    have hstep : t1 * 1000 + 1 ≤ t2 * 1000 := by nlinarith
    calc ⌊t1 * 1000⌋ < ⌊t1 * 1000⌋ + 1 := lt_add_one _
      _ = ⌊t1 * 1000 + 1⌋ := (Int.floor_add_one _).symm
      _ ≤ ⌊t2 * 1000⌋ := Int.floor_le_floor hstep

/-- Witness for the amended C2, at clock readings 1 s and 2 s. -/
theorem nonce_monotone_witness :
    nonceOf 1 ≤ nonceOf 2 ∧ nonceOf 1 < nonceOf 2 :=
  ⟨(nonce_monotone 1 2 (by norm_num) (by norm_num)).1,
   (nonce_monotone 1 2 (by norm_num) (by norm_num)).2 (by norm_num)⟩

/-- C3: a private dispatch carries the key, signature and nonce parameters
exactly once each and passes the defensive `_validate_params` post-check; a
public dispatch sends the caller params unchanged, and the parameter dicts the
facade supplies to its public endpoints (`depth`, `since`, or none at all)
contain no auth field. -/
theorem private_auth_triple_and_public_clean :
    (∀ (A : ApiState) (d : Dict) (t : ℚ), (d.map Prod.fst).Nodup →
        ((apiRequestParams A d true t).map Prod.fst).count "key" = 1
        ∧ ((apiRequestParams A d true t).map Prod.fst).count "signature" = 1
        ∧ ((apiRequestParams A d true t).map Prod.fst).count "nonce" = 1
        ∧ validate_params ["nonce", "key", "signature"] (apiRequestParams A d true t) =
            Except.ok ())
    ∧ (∀ (A : ApiState) (d : Dict) (t : ℚ), apiRequestParams A d false t = d)
    ∧ (∀ depth : ℤ,
        dictContains (paramsOrEmpty (get_order_book_params depth)) "key" = false
        ∧ dictContains (paramsOrEmpty (get_order_book_params depth)) "signature" = false
        ∧ dictContains (paramsOrEmpty (get_order_book_params depth)) "nonce" = false)
    ∧ (∀ since : Val,
        dictContains (paramsOrEmpty (get_trade_history_params since)) "key" = false
        ∧ dictContains (paramsOrEmpty (get_trade_history_params since)) "signature" = false
        ∧ dictContains (paramsOrEmpty (get_trade_history_params since)) "nonce" = false)
    ∧ (dictContains (paramsOrEmpty no_params) "key" = false
       ∧ dictContains (paramsOrEmpty no_params) "signature" = false
       ∧ dictContains (paramsOrEmpty no_params) "nonce" = false) := by
  refine ⟨fun A d t hnd => ?_, fun A d t => rfl, fun depth => ⟨rfl, rfl, rfl⟩,
    fun since => ⟨rfl, rfl, rfl⟩, rfl, rfl, rfl⟩
  have hm := mem_keys_apiRequestParams A d t
  have hn := nodup_keys_apiRequestParams A d t hnd
  have hck : dictContains (apiRequestParams A d true t) "key" = true :=
    (dictContains_iff _ _).2 hm.1
  have hcs : dictContains (apiRequestParams A d true t) "signature" = true :=
    (dictContains_iff _ _).2 hm.2.1
  have hcn : dictContains (apiRequestParams A d true t) "nonce" = true :=
    (dictContains_iff _ _).2 hm.2.2
  refine ⟨List.count_eq_one_of_mem hn hm.1, List.count_eq_one_of_mem hn hm.2.1,
    List.count_eq_one_of_mem hn hm.2.2, ?_⟩
  simp [validate_params, hck, hcs, hcn]

/-- Witness for C3: the private conjunct applied to an empty working dict. -/
theorem private_auth_triple_witness :
    ((apiRequestParams testState [] true 1).map Prod.fst).count "key" = 1
    ∧ validate_params ["nonce", "key", "signature"] (apiRequestParams testState [] true 1) =
        Except.ok () :=
  ⟨(private_auth_triple_and_public_clean.1 testState [] 1 (by simp)).1,
   (private_auth_triple_and_public_clean.1 testState [] 1 (by simp)).2.2.2⟩

/-- C9: in every private dispatch the signature parameter actually sent is
`_create_signature` of the nonce parameter actually sent, both freshly derived
from the request-construction clock reading `t`; in particular the stale pairs
built by `get_crypto_address` and `get_all_crypto_addresses` at an earlier
reading `t0` are overwritten by a mutually consistent fresh pair. -/
theorem signature_bound_to_sent_nonce :
    (∀ (A : ApiState) (d : Dict) (t : ℚ),
        List.lookup "nonce" (apiRequestParams A d true t) = some (Val.vstr (nonceStr t))
        ∧ List.lookup "signature" (apiRequestParams A d true t) =
            some (Val.vstr (createSignature A (nonceStr t))))
    ∧ (∀ (A : ApiState) (t0 t1 : ℚ) (currency : List Char),
        List.lookup "nonce"
            (apiRequestOutgoing A (some (get_crypto_address_params A t0 currency)) true t1) =
          some (Val.vstr (nonceStr t1))
        ∧ List.lookup "signature"
            (apiRequestOutgoing A (some (get_crypto_address_params A t0 currency)) true t1) =
          some (Val.vstr (createSignature A (nonceStr t1)))
        ∧ List.lookup "nonce"
            (apiRequestOutgoing A (some (get_all_crypto_addresses_params A t0 currency)) true t1) =
          some (Val.vstr (nonceStr t1))
        ∧ List.lookup "signature"
            (apiRequestOutgoing A (some (get_all_crypto_addresses_params A t0 currency)) true t1) =
          some (Val.vstr (createSignature A (nonceStr t1)))) := by
  have base : ∀ (A : ApiState) (d : Dict) (t : ℚ),
      List.lookup "nonce" (apiRequestParams A d true t) = some (Val.vstr (nonceStr t))
      ∧ List.lookup "signature" (apiRequestParams A d true t) =
          some (Val.vstr (createSignature A (nonceStr t))) := by
    intro A d t
    rw [apiRequestParams_private]
    constructor
    · exact lookup_pySet_self _ _ _
    · rw [lookup_pySet_ne _ _ (by decide), lookup_pySet_self]
  refine ⟨base, fun A t0 t1 currency => ?_⟩
  have h1 := base A (get_crypto_address_params A t0 currency) t1
  have h2 := base A (get_all_crypto_addresses_params A t0 currency) t1
  exact ⟨h1.1, h1.2, h2.1, h2.2⟩

/-- C10: a non-empty caller-supplied dict of a private call is mutated in place,
so afterwards the caller's own dict is the outgoing parameter set and carries
the injected key, signature and nonce; an empty caller-supplied dict is replaced
by a fresh dict (`params or \x7b\x7d`), stays empty, and the auth fields land in
the fresh, non-empty outgoing dict only. -/
theorem caller_dict_mutation :
    ∀ (A : ApiState) (t : ℚ) (d : Dict),
      (d ≠ [] →
        callerDictAfter A (some d) true t = some (apiRequestParams A d true t)
        ∧ apiRequestOutgoing A (some d) true t = apiRequestParams A d true t
        ∧ dictContains (apiRequestParams A d true t) "key" = true
        ∧ dictContains (apiRequestParams A d true t) "signature" = true
        ∧ dictContains (apiRequestParams A d true t) "nonce" = true)
      ∧ (callerDictAfter A (some []) true t = some []
         ∧ apiRequestOutgoing A (some []) true t = apiRequestParams A [] true t
         ∧ apiRequestOutgoing A (some []) true t ≠ []) := by
  intro A t d
  constructor
  · intro hne
    have hemp : d.isEmpty = false := by
      cases d with
      | nil => exact absurd rfl hne
      | cons p rest => rfl
    have hm := mem_keys_apiRequestParams A d t
    refine ⟨by simp [callerDictAfter, hemp], by simp [apiRequestOutgoing, paramsOrEmpty, hemp],
      (dictContains_iff _ _).2 hm.1, (dictContains_iff _ _).2 hm.2.1,
      (dictContains_iff _ _).2 hm.2.2⟩
  · refine ⟨rfl, rfl, ?_⟩
    rw [apiRequestOutgoing, paramsOrEmpty, apiRequestParams_private]
    simp [pySet]

/-- Witness for C10: the mutation conjunct applied to a one-entry caller dict. -/
theorem caller_dict_mutation_witness :
    callerDictAfter testState (some [("currency", Val.vstr [])]) true 1 =
      some (apiRequestParams testState [("currency", Val.vstr [])] true 1) :=
  ((caller_dict_mutation testState 1 [("currency", Val.vstr [])]).1 (by simp)).1

/-- The canned success response of the spec: status 200, body with an error key. -/
def cannedErrorResp : Resp :=
  ⟨200, some (Json.jobj [("error", Json.jstr "no active orders")]), "raw"⟩

/-- The canned non-JSON response of the spec: status 200, plain-text body. -/
def cannedTextResp : Resp := ⟨200, none, "OK"⟩

/-- C4: a response whose body is a JSON object with a top-level error key is
classified as `ApiResponseError` sourced from that body even on a success
status, and concretely the canned 200 response with error "no active orders"
yields `ApiResponseError` with that message and status 200. -/
theorem error_key_wins_over_status :
    (∀ (r : Resp) (fields : List (String × Json)) (v : Json),
        r.status < 400 → r.jsonBody = some (Json.jobj fields) →
        jsonGet fields "error" = some v →
        classify r = ClassifyResult.err (ApiErr.apiResponse r.status v (some (Json.jobj fields))))
    ∧ classify cannedErrorResp =
        ClassifyResult.err (ApiErr.apiResponse 200 (Json.jstr "no active orders")
          (some (Json.jobj [("error", Json.jstr "no active orders")]))) := by
  refine ⟨fun r fields v hs hb hv => ?_, rfl⟩
  have hcond : ¬(400 ≤ r.status ∧ r.status < 600) := by omega
  have hany : (fields.any fun p => p.1 == "error") = true := any_key_of_lookup hv
  simp only [classify]
  rw [if_neg hcond, hb]
  simp only [pyInJson, hany, from_response, hb, jsonGet]
  rw [show List.lookup "error" fields = some v from hv, Option.getD_some]

/-- Witness for C4: the general conjunct applied to the canned 200 response. -/
theorem error_key_wins_witness :
    classify cannedErrorResp =
      ClassifyResult.err (ApiErr.apiResponse cannedErrorResp.status (Json.jstr "no active orders")
        (some (Json.jobj [("error", Json.jstr "no active orders")]))) :=
  error_key_wins_over_status.1 cannedErrorResp [("error", Json.jstr "no active orders")]
    (Json.jstr "no active orders") (by norm_num [cannedErrorResp]) rfl rfl

/-- C7: a success-status response with an unparsable body is classified as
`ApiResponseError` with the fixed message "Invalid JSON response", the
response's status code, and no data attached; concretely so for the canned
200 response with plain-text body. -/
theorem invalid_json_fixed_message :
    (∀ r : Resp, r.status < 400 → r.jsonBody = none →
        classify r =
          ClassifyResult.err (ApiErr.apiResponse r.status (Json.jstr "Invalid JSON response") none))
    ∧ classify cannedTextResp =
        ClassifyResult.err (ApiErr.apiResponse 200 (Json.jstr "Invalid JSON response") none) := by
  refine ⟨fun r hs hb => ?_, rfl⟩
  have hcond : ¬(400 ≤ r.status ∧ r.status < 600) := by omega
  simp only [classify]
  rw [if_neg hcond, hb]

/-- Witness for C7: the general conjunct applied to the canned plain-text response. -/
theorem invalid_json_witness :
    classify cannedTextResp =
      ClassifyResult.err
        (ApiErr.apiResponse cannedTextResp.status (Json.jstr "Invalid JSON response") none) :=
  invalid_json_fixed_message.1 cannedTextResp (by norm_num [cannedTextResp]) rfl

/-- Credential validation succeeds exactly when both values reach the floor of 20. -/
theorem validate_cred_ok_iff (k s : List Char) :
    validate_api_credentials k s = Except.ok () ↔ 20 ≤ k.length ∧ 20 ≤ s.length := by
  unfold validate_api_credentials
  by_cases he : (k.isEmpty || s.isEmpty) = true
  · rw [if_pos he]
    have hz : k.length = 0 ∨ s.length = 0 := by
      rcases (by simpa using he : k = [] ∨ s = []) with h | h
      · exact Or.inl (by simp [h])
      · exact Or.inr (by simp [h])
    constructor
    · intro hcontra; exact absurd hcontra (by simp)
    · rintro ⟨h1, h2⟩; omega
  · rw [if_neg he]
    by_cases hl : (decide (k.length < 20) || decide (s.length < 20)) = true
    · rw [if_pos hl]
      have hz : k.length < 20 ∨ s.length < 20 := by simpa using hl
      constructor
      · intro hcontra; exact absurd hcontra (by simp)
      · rintro ⟨h1, h2⟩; omega
    · rw [if_neg hl]
      simp only [Bool.or_eq_true, decide_eq_true_eq, not_or, not_lt] at hl
      exact ⟨fun _ => ⟨hl.1, hl.2⟩, fun _ => rfl⟩

/-- Credential validation only ever fails with `InvalidCredentialsError`. -/
theorem validate_cred_error_shape (k s : List Char) (e : ApiErr)
    (h : validate_api_credentials k s = Except.error e) :
    ∃ msg, e = ApiErr.invalidCredentials msg := by
  unfold validate_api_credentials at h
  by_cases he : (k.isEmpty || s.isEmpty) = true
  · rw [if_pos he] at h
    exact ⟨_, (Except.error.inj h).symm⟩
  · rw [if_neg he] at h
    by_cases hl : (decide (k.length < 20) || decide (s.length < 20)) = true
    · rw [if_pos hl] at h
      exact ⟨_, (Except.error.inj h).symm⟩
    · rw [if_neg hl] at h
      exact absurd h (by simp)

/-- C6: construction succeeds exactly when both credentials are non-empty and at
least 20 characters, fails with `InvalidCredentialsError` exactly when either is
shorter, propagates the validation error before the session exists, and in
particular accepts credentials whose lengths differ from the documented exact
lengths 26 and 27. -/
theorem credential_floor_validation :
    ∀ u k s : List Char,
      (isOkInit (apiInit u k s) = true ↔ 20 ≤ k.length ∧ 20 ≤ s.length)
      ∧ (isInvalidCredentialsErr (apiInit u k s) = true ↔ (k.length < 20 ∨ s.length < 20))
      ∧ (∀ e, validate_api_credentials k s = Except.error e → apiInit u k s = Except.error e)
      ∧ (isOkInit
            (apiInit u (List.replicate 21 (Char.ofNat 97)) (List.replicate 21 (Char.ofNat 97)))
              = true
         ∧ 21 ≠ API_KEY_LENGTH ∧ 21 ≠ API_SECRET_LENGTH) := by
  intro u k s
  refine ⟨?_, ?_, fun e he => by rw [apiInit, he], ?_, by decide, by decide⟩
  · cases hv : validate_api_credentials k s with
    | ok uval =>
      cases uval
      have := (validate_cred_ok_iff k s).mp hv
      simp [apiInit, hv, isOkInit, this]
    | error e =>
      have hne : ¬(20 ≤ k.length ∧ 20 ≤ s.length) := fun hc => by
        rw [(validate_cred_ok_iff k s).mpr hc] at hv; cases hv
      simp [apiInit, hv, isOkInit, hne]
  · cases hv : validate_api_credentials k s with
    | ok uval =>
      cases uval
      have hge := (validate_cred_ok_iff k s).mp hv
      have : ¬(k.length < 20 ∨ s.length < 20) := by omega
      simp [apiInit, hv, isInvalidCredentialsErr, this]
    | error e =>
      obtain ⟨msg, rfl⟩ := validate_cred_error_shape k s e hv
      have hne : ¬(20 ≤ k.length ∧ 20 ≤ s.length) := fun hc => by
        rw [(validate_cred_ok_iff k s).mpr hc] at hv; cases hv
      have : k.length < 20 ∨ s.length < 20 := by omega
      simp [apiInit, hv, isInvalidCredentialsErr, this]
  · rfl

/-- Witness for C6: empty credentials fail construction with the eager
validation error, before any session exists. -/
theorem credential_floor_witness :
    apiInit [] [] [] =
      Except.error (ApiErr.invalidCredentials "API key and secret cannot be empty.") :=
  (credential_floor_validation [] [] []).2.2.1 _ rfl

/-- C5: the session is mounted with retry bound 3 applied uniformly to connect,
read and status retries over the forcelist 429/500/502/503/504, backoff doubles
per attempt from base factor 0.3, and exhausting the bound on all-retryable
outcomes surfaces as `NetworkError` carrying the cause; a non-retryable
response within the bound is returned. -/
theorem retry_config_and_exhaustion :
    (∀ (retries : Nat) (bf : ℚ),
        create_session_with_retries retries bf =
          ⟨retries, retries, retries, bf, [429, 500, 502, 503, 504]⟩)
    ∧ defaultSession = create_session_with_retries 3 (3 / 10)
    ∧ (∀ (cfg : RetryConfig) (r : Nat), backoffDelay cfg (r + 1) = 2 * backoffDelay cfg r)
    ∧ backoffDelay defaultSession 0 = 3 / 10
    ∧ (∀ (cfg : RetryConfig) (outcomes : Nat → AttemptOutcome),
        (∀ i, i ≤ cfg.total → isRetryable cfg (outcomes i) = true) →
        sendViaApiRequest cfg outcomes =
          Except.error (ApiErr.network ("An error occurred: " ++ "Max retries exceeded")))
    ∧ (∀ (cfg : RetryConfig) (outcomes : Nat → AttemptOutcome) (n c : Nat),
        n ≤ cfg.total → (∀ j, j < n → isRetryable cfg (outcomes j) = true) →
        outcomes n = AttemptOutcome.httpStatus c →
        cfg.status_forcelist.contains c = false →
        sendViaApiRequest cfg outcomes = Except.ok c) := by
  refine ⟨fun retries bf => rfl, rfl, fun cfg r => ?_, by
    simp [backoffDelay, defaultSession, create_session_with_retries], ?_, ?_⟩
  · rw [backoffDelay, backoffDelay, pow_succ]; ring
  · intro cfg outcomes h
    have hall : ∀ j, j < cfg.total + 1 → isRetryable cfg (outcomes (0 + j)) = true := by
      intro j hj
      simpa using h j (by omega)
    rw [sendViaApiRequest, sessionSend, sendAttempts_exhaust cfg outcomes (cfg.total + 1) 0 hall]
  · intro cfg outcomes n c hn h ho hc
    have hpre : ∀ j, j < n → isRetryable cfg (outcomes (0 + j)) = true := by
      intro j hj
      simpa using h j hj
    have := sendAttempts_success cfg outcomes n (cfg.total + 1) 0 c (by omega) hpre
      (by simpa using ho) hc
    rw [sendViaApiRequest, sessionSend, this]

/-- Witness for C5: four connect failures exhaust the default bound and surface
as `NetworkError`; a 404 on the second attempt is returned. -/
theorem retry_exhaustion_witness :
    sendViaApiRequest defaultSession (fun _ => AttemptOutcome.connectFail) =
      Except.error (ApiErr.network ("An error occurred: " ++ "Max retries exceeded"))
    ∧ sendViaApiRequest defaultSession
        (fun i => if i = 0 then AttemptOutcome.connectFail else AttemptOutcome.httpStatus 404) =
      Except.ok 404 :=
  ⟨retry_config_and_exhaustion.2.2.2.2.1 defaultSession _ (fun i _ => rfl),
   retry_config_and_exhaustion.2.2.2.2.2 defaultSession _ 1 404 (by decide)
     (fun j hj => by
       have hj0 : j = 0 := by omega
       subst hj0
       rfl)
     rfl rfl⟩

/-- The canned 400 response for the historical path. -/
def cannedHttpErrResp : Resp := ⟨400, some (Json.jobj [("error", Json.jstr "Bad Request")]), "raw"⟩

/-- Counterexample to C8: on the historical path a 400 response is wrapped as
`NetworkError` (its `HTTPError` is swallowed by the generic `RequestException`
handler), not classified as `ApiResponseError` the way the standard path does,
and a 200 body containing an error key is returned as a success. -/
theorem historical_path_not_classified :
    historical_ohlcv_result "T" (fun _ => "E") (fun _ => "J")
        (TransportOutcome.response cannedHttpErrResp) =
      ClassifyResult.err
        (ApiErr.network ("An error occurred while fetching historical OHLCV data: " ++ "E"))
    ∧ isApiRespErr (historical_ohlcv_result "T" (fun _ => "E") (fun _ => "J")
        (TransportOutcome.response cannedHttpErrResp)) = false
    ∧ historical_ohlcv_result "T" (fun _ => "E") (fun _ => "J")
        (TransportOutcome.response cannedErrorResp) =
      ClassifyResult.ok (Json.jobj [("error", Json.jstr "no active orders")])
    ∧ isApiRespErr (classify cannedHttpErrResp) = true :=
  ⟨rfl, rfl, rfl, rfl⟩

/-- C8 as amended: the historical path does terminate every failure with a typed
error object, but always a `NetworkError` — 4xx/5xx statuses, unparsable bodies
(on `requests` ≥ 2.27, whose `JSONDecodeError` is a `RequestException`),
timeouts and transport failures alike — and it never raises
`ApiResponseError`: a parsed 2xx body is returned untouched even when it
contains an error key. -/
theorem historical_failures_all_network :
    ∀ (tmo : String) (httpText jsonText : Resp → String),
      (∀ r : Resp, 400 ≤ r.status → r.status < 600 →
        historical_ohlcv_result tmo httpText jsonText (TransportOutcome.response r) =
          ClassifyResult.err
            (ApiErr.network
              ("An error occurred while fetching historical OHLCV data: " ++ httpText r)))
      ∧ (∀ r : Resp, r.status < 400 → r.jsonBody = none →
        historical_ohlcv_result tmo httpText jsonText (TransportOutcome.response r) =
          ClassifyResult.err
            (ApiErr.network
              ("An error occurred while fetching historical OHLCV data: " ++ jsonText r)))
      ∧ (∀ (r : Resp) (body : Json), r.status < 400 → r.jsonBody = some body →
        historical_ohlcv_result tmo httpText jsonText (TransportOutcome.response r) =
          ClassifyResult.ok body)
      ∧ (∀ msg : String,
        historical_ohlcv_result tmo httpText jsonText (TransportOutcome.requestFail msg) =
          ClassifyResult.err
            (ApiErr.network ("An error occurred while fetching historical OHLCV data: " ++ msg)))
      ∧ historical_ohlcv_result tmo httpText jsonText TransportOutcome.timeout =
          ClassifyResult.err
            (ApiErr.network ("An error occurred while fetching historical OHLCV data: " ++ tmo)) := by
  intro tmo httpText jsonText
  refine ⟨fun r h1 h2 => ?_, fun r h1 h2 => ?_, fun r body h1 h2 => ?_, fun msg => rfl, rfl⟩
  · simp only [historical_ohlcv_result]
    rw [if_pos ⟨h1, h2⟩]
  · have hcond : ¬(400 ≤ r.status ∧ r.status < 600) := by omega
    simp only [historical_ohlcv_result]
    rw [if_neg hcond, h2]
  · have hcond : ¬(400 ≤ r.status ∧ r.status < 600) := by omega
    simp only [historical_ohlcv_result]
    rw [if_neg hcond, h2]

/-- Witness for the amended C8: the 400 conjunct applied to the canned response. -/
theorem historical_failures_witness :
    historical_ohlcv_result "T" (fun _ => "E") (fun _ => "J")
        (TransportOutcome.response cannedHttpErrResp) =
      ClassifyResult.err
        (ApiErr.network
          ("An error occurred while fetching historical OHLCV data: " ++ "E")) :=
  (historical_failures_all_network "T" (fun _ => "E") (fun _ => "J")).1 cannedHttpErrResp
    (by norm_num [cannedHttpErrResp]) (by norm_num [cannedHttpErrResp])

end Cexio
